import Mathlib

/-!
Shallow embedding of `smartsheet_gpt_agent.py`: a small Flask relay that
authenticates internal callers, fetches Smartsheet attachments, extracts
text from several document formats, and forwards the text to a completion
model.  External effects (the storage-service metadata call, the byte
download, the third-party parsers, the zip archiver and the model call)
are passed in explicitly; the repository's own control flow (dispatch,
thresholds, truncation, exception-to-status mapping) is translated
directly from the source.
-/

namespace Godspeed

/-- Raw byte buffers (`bytes` in Python) as lists of naturals. -/
abbrev Bytes := List Nat

/-- A Flask JSON response: status code plus the JSON object's key/value pairs,
in the order the source writes them. -/
structure Response where
  status : Nat
  body : List (String × String)
deriving DecidableEq, Repr

/-- Python `a.isPrefixOf`-style check on character lists: does the first list
start the second? -/
def prefixOfChars : List Char → List Char → Bool
  | [], _ => true
  | _ :: _, [] => false
  | a :: as, b :: bs => a == b && prefixOfChars as bs

/-- Helper for substring search over the haystack's character list. -/
def containsAux (needle : List Char) : List Char → Bool
  | [] => needle.isEmpty
  | h :: t => prefixOfChars needle (h :: t) || containsAux needle t

/-- Python's `needle in hay` substring containment on strings. -/
def containsSub (needle hay : String) : Bool :=
  containsAux needle.data hay.data

/-- Resolved attachment metadata (`ss_client.Attachments.get_attachment` result):
name, MIME type, and download URL.  `url = none` models a missing attribute or
`None`; `some ""` models an empty string (both falsy in `not attachment.url`). -/
structure Attachment where
  name : String
  mime_type : String
  url : Option String
deriving DecidableEq, Repr

/-- A completion reply: the first choice's message content plus usage metadata. -/
structure ModelReply where
  content : List Char
  usage : String

/-- The third-party extraction libraries (fitz, `str.decode("utf-8")`, pandas,
python-docx) as fallible text producers: `.error` models a raised exception. -/
structure Parsers where
  pdfParse : Bytes → Except String (List Char)
  utf8Decode : Bytes → Except String (List Char)
  excelParse : Bytes → Except String (List Char)
  docxParse : Bytes → Except String (List Char)

/-- The external world one `/analyze-attachment` request sees: the metadata
call's outcome, the byte download's outcome, the archiver, the parsers and
the completion call (given the user message's content). -/
structure Env where
  parsers : Parsers
  metadata : Except String Attachment
  download : Except String Bytes
  zipf : String → Bytes → Bytes
  modelCall : List Char → Except String ModelReply

/-- Which `elif` arm of the extractor ran. -/
inductive Branch where
  | pdf
  | text
  | sheet
  | word
deriving DecidableEq, Repr

/-- Observable effects of handling one request: which outbound calls were
attempted, which extractor arm ran, and the user-message content sent to the
model (if a completion call was made). -/
structure Trace where
  metadataAttempted : Bool
  downloadAttempted : Bool
  extractionReached : Bool
  branch : Option Branch
  sentMessage : Option (List Char)

/-- The trace of a request whose handler never ran: no outbound call of any
kind. -/
def Trace.nothing : Trace := ⟨false, false, false, none, none⟩

/-- `compress_if_large` (source lines 37-43): over 75 MiB, archive the bytes
and return the zip MIME type and the archived filename; otherwise pass the
buffer through with no type and no name. -/
def compress_if_large (zipf : String → Bytes → Bytes) (file_bytes : Bytes)
    (filename : String) : Bytes × Option String × Option String :=
  if file_bytes.length > 75 * 1024 * 1024 then
    (zipf filename file_bytes, some "application/zip", some (filename ++ ".zip"))
  else
    (file_bytes, none, none)

/-- The extractor's MIME dispatch (the `if/elif` chain of source lines
118-130): first matching substring wins, in source order. -/
def dispatch (content_type : String) : Option Branch :=
  if containsSub "pdf" content_type then some Branch.pdf
  else if containsSub "text" content_type then some Branch.text
  else if containsSub "spreadsheet" content_type || containsSub "excel" content_type then
    some Branch.sheet
  else if containsSub "wordprocessingml" content_type || containsSub "msword" content_type then
    some Branch.word
  else none

/-- Run the selected arm's third-party parser on the bytes. -/
def runBranch (p : Parsers) (b : Branch) (bs : Bytes) : Except String (List Char) :=
  match b with
  | Branch.pdf => p.pdfParse bs
  | Branch.text => p.utf8Decode bs
  | Branch.sheet => p.excelParse bs
  | Branch.word => p.docxParse bs

/-- Outcome of the extraction `try` block: text produced by an arm, an
exception raised by an arm, or no arm matched (the `else` return). -/
inductive ExtractOutcome where
  | ok (b : Branch) (text : List Char)
  | parseErr (b : Branch) (msg : String)
  | unsupported (mime : String)
deriving DecidableEq, Repr

/-- The extractor (source lines 117-132): dispatch on the MIME type, run the
matching parser, and classify the result. -/
def extract (p : Parsers) (content_type : String) (bs : Bytes) : ExtractOutcome :=
  match dispatch content_type with
  | some b =>
      match runBranch p b bs with
      | Except.ok t => ExtractOutcome.ok b t
      | Except.error e => ExtractOutcome.parseErr b e
  | none => ExtractOutcome.unsupported content_type

/-- The user-message content of the attachment route's completion call
(source line 142): the fixed instruction followed by `raw_text[:8000]`. -/
def userMessage_attachment (raw_text : List Char) : List Char :=
  "Analyze this document:\n\n".data ++ raw_text.take 8000

/-- Source lines 114-148: everything after the fetch `try` block — extraction,
the empty-text check, and the completion call.  Returns the response, the arm
that ran, and the user-message content sent to the model (if any). -/
def extract_phase (p : Parsers) (modelCall : List Char → Except String ModelReply)
    (content_type : String) (file_bytes : Bytes) :
    Response × Option Branch × Option (List Char) :=
  match extract p content_type file_bytes with
  | ExtractOutcome.unsupported ct =>
      (⟨415, [("error", "Unsupported file type: " ++ ct)]⟩, none, none)
  | ExtractOutcome.parseErr b e =>
      (⟨422, [("error", "Document parsing failed: " ++ e)]⟩, some b, none)
  | ExtractOutcome.ok b raw_text =>
      if raw_text.isEmpty then
        (⟨422, [("error", "Failed to extract text.")]⟩, some b, none)
      else
        let msg := userMessage_attachment raw_text
        match modelCall msg with
        | Except.ok reply =>
            (⟨200, [("analysis", String.mk reply.content)]⟩, some b, some msg)
        | Except.error e =>
            (⟨502, [("error", "OpenAI error: " ++ e)]⟩, some b, some msg)

/-- The `/analyze-attachment/<sheet_id>/<attachment_id>` handler (source lines
98-148): metadata resolution, URL check, byte download and size guard inside
one `try/except → 400`, then the extraction phase. -/
def analyze_attachment (env : Env) : Response × Trace :=
  match env.metadata with
  | Except.error e =>
      (⟨400, [("error", "Attachment fetch failed: " ++ e)]⟩,
       ⟨true, false, false, none, none⟩)
  | Except.ok att =>
      if att.url = none ∨ att.url = some "" then
        (⟨404, [("error", "Attachment object missing URL.")]⟩,
         ⟨true, false, false, none, none⟩)
      else
        match env.download with
        | Except.error e =>
            (⟨400, [("error", "Attachment fetch failed: " ++ e)]⟩,
             ⟨true, true, false, none, none⟩)
        | Except.ok fileBytes =>
            let r := compress_if_large env.zipf fileBytes att.name
            if r.2.1.isSome then
              (⟨200, [("note", "File was compressed due to size."),
                      ("filename", r.2.2.getD "")]⟩,
               ⟨true, true, false, none, none⟩)
            else
              let e := extract_phase env.parsers env.modelCall att.mime_type r.1
              (e.1, ⟨true, true, true, e.2.1, e.2.2⟩)

/-- The `/analyze` handler (source lines 78-96): require truthy `content` and
`query`, then send `query`, a blank line, and `content[:8000]` to the model.
Returns the response and the user-message content sent (if any). -/
def analyze_content (modelCall : List Char → Except String ModelReply)
    (content query : Option (List Char)) : Response × Option (List Char) :=
  if content = none ∨ content = some [] ∨ query = none ∨ query = some [] then
    (⟨400, [("error", "Both 'content' and 'query' are required.")]⟩, none)
  else
    let c := content.getD []
    let q := query.getD []
    let msg := q ++ "\n\n".data ++ c.take 8000
    match modelCall msg with
    | Except.ok reply =>
        (⟨200, [("response", String.mk reply.content), ("usage", reply.usage)]⟩, some msg)
    | Except.error e =>
        (⟨502, [("error", "OpenAI error: " ++ e)]⟩, some msg)

/-- The `before_request` access gate (source lines 45-49): on every endpoint
except `healthcheck`, reject with 403 unless the `X-Internal-Access` header
equals the configured secret (`headers.get` yields `none` when absent; the
secret is `none` when the environment variable is unset). -/
def auth_check (endpoint : String) (header secret : Option String) : Option Response :=
  if endpoint ∈ (["healthcheck"] : List String) then none
  else if header ≠ secret then
    some ⟨403, [("error", "Unauthorized. Invalid internal access code.")]⟩
  else none

/-- Flask's request processing: run the gate first; only when it returns
nothing does the route handler run. -/
def handle_request (endpoint : String) (header secret : Option String)
    (handler : Unit → Response × Trace) : Response × Trace :=
  match auth_check endpoint header secret with
  | some resp => (resp, Trace.nothing)
  | none => handler ()

/-- `fetch_json` (source lines 28-35, defined but never called by any route):
a request exception yields a 502 error response; a non-ok HTTP status yields
that status with the body text; otherwise the parsed JSON. -/
inductive HttpOutcome where
  | exn (msg : String)
  | resp (ok : Bool) (status : Nat) (text : String)

/-- `fetch_json`'s result triple `(json?, error_response?, status?)`, with the
response body standing in for the parsed JSON on success. -/
def fetch_json (outcome : HttpOutcome) : Option String × Option Response × Option Nat :=
  match outcome with
  | HttpOutcome.exn e => (none, some ⟨502, [("error", e)]⟩, some 502)
  | HttpOutcome.resp ok status text =>
      if ok then (some text, none, none)
      else (none, some ⟨status, [("error", text)]⟩, some status)

/-! ## Concrete environments used to instantiate the theorems -/

/-- Parsers that always raise, standing in for arbitrary third-party libraries. -/
def demoParsers : Parsers :=
  ⟨fun _ => Except.error "fitz", fun _ => Except.error "utf8",
   fun _ => Except.error "pandas", fun _ => Except.error "docx"⟩

/-- An environment whose metadata call raises a network error. -/
def metaFailEnv : Env :=
  ⟨demoParsers, Except.error "Connection refused", Except.error "unused",
   fun _ bs => bs, fun _ => Except.error "no model"⟩

/-- An environment whose metadata resolves but whose byte download raises. -/
def dlFailEnv : Env :=
  ⟨demoParsers,
   Except.ok ⟨"report.pdf", "application/pdf", some "https://example.com/dl"⟩,
   Except.error "Connection reset", fun _ bs => bs, fun _ => Except.error "no model"⟩

/-! ## Shared pipeline lemma -/

/-- When the metadata resolves with a usable URL, the download succeeds and the
bytes are within the size threshold, the attachment route runs the extraction
phase on the downloaded bytes. -/
theorem analyze_attachment_reaches_extraction (env : Env) (att : Attachment) (bs : Bytes)
    (hmeta : env.metadata = Except.ok att)
    (hurl : ¬ (att.url = none ∨ att.url = some ""))
    (hdl : env.download = Except.ok bs)
    (hsize : bs.length ≤ 75 * 1024 * 1024) :
    analyze_attachment env =
      ((extract_phase env.parsers env.modelCall att.mime_type bs).1,
       ⟨true, true, true,
        (extract_phase env.parsers env.modelCall att.mime_type bs).2.1,
        (extract_phase env.parsers env.modelCall att.mime_type bs).2.2⟩) := by
  have hle : ¬ (List.length bs > 75 * 1024 * 1024) := by omega
  simp only [analyze_attachment, hmeta, hdl, compress_if_large]
  rw [if_neg hurl, if_neg hle]
  simp

/-! ## Claims -/

/-- C1: for every request to an endpoint other than the liveness route, if the
`X-Internal-Access` header is absent or differs from the configured shared
secret, the response is the fixed 403 JSON error, the route handler never
runs, and no downstream call of any kind is attempted. -/
theorem access_gate_rejects_bad_header (endpoint : String) (header : Option String)
    (s : String) (handler : Unit → Response × Trace)
    (hend : endpoint ∉ (["healthcheck"] : List String))
    (hhd : header ≠ some s) :
    handle_request endpoint header (some s) handler =
      (⟨403, [("error", "Unauthorized. Invalid internal access code.")]⟩,
       Trace.nothing) := by
  simp only [handle_request, auth_check, if_neg hend, if_pos hhd]

/-- Witness for C1 at a concrete request: wrong header on the attachment
route, secret configured. -/
theorem access_gate_rejects_bad_header_witness :
    handle_request "analyze_attachment" (some "wrong") (some "swordfish")
        (fun _ => (⟨200, []⟩, ⟨true, true, true, none, none⟩)) =
      (⟨403, [("error", "Unauthorized. Invalid internal access code.")]⟩,
       Trace.nothing) :=
  access_gate_rejects_bad_header "analyze_attachment" (some "wrong") "swordfish"
    (fun _ => (⟨200, []⟩, ⟨true, true, true, none, none⟩)) (by decide) (by decide)

/-- C10: when the shared-secret environment variable is unset, a request to a
non-liveness endpoint with no `X-Internal-Access` header is not rejected: the
gate returns nothing and the route handler runs. -/
theorem unset_secret_gate_passes (endpoint : String) (handler : Unit → Response × Trace)
    (hend : endpoint ∉ (["healthcheck"] : List String)) :
    auth_check endpoint none none = none ∧
    handle_request endpoint none none handler = handler () := by
  constructor <;> simp [auth_check, handle_request, if_neg hend]

/-- Witness for C10 at a concrete request: no secret configured and no header
sent; the handler's own response comes back. -/
theorem unset_secret_gate_passes_witness :
    handle_request "analyze_content" none none
        (fun _ => (⟨200, [("status", "ran")]⟩, Trace.nothing)) =
      (⟨200, [("status", "ran")]⟩, Trace.nothing) :=
  (unset_secret_gate_passes "analyze_content"
    (fun _ => (⟨200, [("status", "ran")]⟩, Trace.nothing)) (by decide)).2

/-- C8: when the resolved metadata lacks a usable download URL (missing or
empty), the attachment route responds 404 and no byte download is attempted. -/
theorem missing_url_404_before_download (env : Env) (att : Attachment)
    (hmeta : env.metadata = Except.ok att)
    (hurl : att.url = none ∨ att.url = some "") :
    analyze_attachment env =
      (⟨404, [("error", "Attachment object missing URL.")]⟩,
       ⟨true, false, false, none, none⟩) := by
  simp only [analyze_attachment, hmeta, if_pos hurl]

/-- Witness for C8 at a concrete environment whose metadata has no URL. -/
theorem missing_url_404_before_download_witness :
    analyze_attachment
        ⟨demoParsers, Except.ok ⟨"report.pdf", "application/pdf", none⟩,
         Except.error "unused", fun _ bs => bs, fun _ => Except.error "no model"⟩ =
      (⟨404, [("error", "Attachment object missing URL.")]⟩,
       ⟨true, false, false, none, none⟩) :=
  missing_url_404_before_download _ ⟨"report.pdf", "application/pdf", none⟩
    rfl (Or.inl rfl)

/-- C2 counterexample: a network error raised by the storage service during
metadata resolution yields status 400, not the claimed 502. -/
theorem attachment_fetch_error_not_502 :
    (analyze_attachment metaFailEnv).1.status = 400 ∧
    (analyze_attachment metaFailEnv).1.status ≠ 502 := by
  constructor <;> decide

/-- C2 amended: a network/API error raised during metadata resolution or the
byte download surfaces as a 400 whose error message is `Attachment fetch
failed: ` followed by the upstream message. -/
theorem attachment_fetch_error_400 (env env2 : Env) (e e2 : String) (att : Attachment)
    (hmeta : env.metadata = Except.error e)
    (hmeta2 : env2.metadata = Except.ok att)
    (hurl : ¬ (att.url = none ∨ att.url = some ""))
    (hdl : env2.download = Except.error e2) :
    (analyze_attachment env).1 =
      ⟨400, [("error", "Attachment fetch failed: " ++ e)]⟩ ∧
    (analyze_attachment env2).1 =
      ⟨400, [("error", "Attachment fetch failed: " ++ e2)]⟩ := by
  constructor
  · simp only [analyze_attachment, hmeta]
  · simp only [analyze_attachment, hmeta2, hdl, if_neg hurl]

/-- Witness for the amended C2: a metadata failure and a download failure,
each a concrete environment, each yielding the 400 fetch-failure response. -/
theorem attachment_fetch_error_400_witness :
    (analyze_attachment metaFailEnv).1 =
      ⟨400, [("error", "Attachment fetch failed: " ++ "Connection refused")]⟩ ∧
    (analyze_attachment dlFailEnv).1 =
      ⟨400, [("error", "Attachment fetch failed: " ++ "Connection reset")]⟩ :=
  attachment_fetch_error_400 metaFailEnv dlFailEnv "Connection refused" "Connection reset"
    ⟨"report.pdf", "application/pdf", some "https://example.com/dl"⟩
    rfl rfl (by decide) rfl

/-- C9: a buffer at or below the 75 MiB threshold passes through the size
guard unchanged, with no compressed type and no archived name, and the
attachment route then runs the extraction phase on those original bytes. -/
theorem size_guard_passthrough (zipf : String → Bytes → Bytes) (name : String)
    (env : Env) (att : Attachment) (bs : Bytes)
    (hsize : bs.length ≤ 75 * 1024 * 1024)
    (hmeta : env.metadata = Except.ok att)
    (hurl : ¬ (att.url = none ∨ att.url = some ""))
    (hdl : env.download = Except.ok bs) :
    compress_if_large zipf bs name = (bs, none, none) ∧
    analyze_attachment env =
      ((extract_phase env.parsers env.modelCall att.mime_type bs).1,
       ⟨true, true, true,
        (extract_phase env.parsers env.modelCall att.mime_type bs).2.1,
        (extract_phase env.parsers env.modelCall att.mime_type bs).2.2⟩) := by
  have hle : ¬ (List.length bs > 75 * 1024 * 1024) := by omega
  exact ⟨by simp [compress_if_large, hle],
         analyze_attachment_reaches_extraction env att bs hmeta hurl hdl hsize⟩

/-- An environment with a small plain-text attachment that decodes and
analyzes successfully. -/
def textOkEnv : Env :=
  ⟨⟨fun _ => Except.error "fitz", fun _ => Except.ok "hello".data,
    fun _ => Except.error "pandas", fun _ => Except.error "docx"⟩,
   Except.ok ⟨"notes.txt", "text/plain", some "https://example.com/dl"⟩,
   Except.ok [104, 101, 108, 108, 111],
   fun _ bs => bs,
   fun _ => Except.ok ⟨"Summary.".data, "usage"⟩⟩

/-- Witness for C9 at a concrete five-byte download. -/
theorem size_guard_passthrough_witness :
    compress_if_large (fun _ bs => bs) [104, 101, 108, 108, 111] "notes.txt" =
      ([104, 101, 108, 108, 111], none, none) ∧
    analyze_attachment textOkEnv =
      ((extract_phase textOkEnv.parsers textOkEnv.modelCall "text/plain"
          [104, 101, 108, 108, 111]).1,
       ⟨true, true, true,
        (extract_phase textOkEnv.parsers textOkEnv.modelCall "text/plain"
          [104, 101, 108, 108, 111]).2.1,
        (extract_phase textOkEnv.parsers textOkEnv.modelCall "text/plain"
          [104, 101, 108, 108, 111]).2.2⟩) :=
  size_guard_passthrough (fun _ bs => bs) "notes.txt" textOkEnv
    ⟨"notes.txt", "text/plain", some "https://example.com/dl"⟩
    [104, 101, 108, 108, 111] (by decide) rfl (by decide) rfl

/-- C4: a downloaded buffer strictly over 75 MiB produces a 200 compression
notice whose filename is the attachment name plus `.zip`; extraction is never
reached and no model call is made, and the response does not depend on the
archiver's output at all. -/
theorem oversize_compression_notice (env : Env) (att : Attachment) (bs : Bytes)
    (hmeta : env.metadata = Except.ok att)
    (hurl : ¬ (att.url = none ∨ att.url = some ""))
    (hdl : env.download = Except.ok bs)
    (hsize : bs.length > 75 * 1024 * 1024) :
    analyze_attachment env =
      (⟨200, [("note", "File was compressed due to size."),
              ("filename", att.name ++ ".zip")]⟩,
       ⟨true, true, false, none, none⟩) := by
  simp only [analyze_attachment, hmeta, hdl, compress_if_large]
  rw [if_neg hurl, if_pos hsize]
  simp

/-- An environment whose download is one byte over the 75 MiB threshold. -/
def bigEnv : Env :=
  ⟨demoParsers,
   Except.ok ⟨"report.pdf", "application/pdf", some "https://example.com/dl"⟩,
   Except.ok (List.replicate (75 * 1024 * 1024 + 1) 0),
   fun _ bs => bs, fun _ => Except.error "no model"⟩

/-- Witness for C4 at a concrete oversize download. -/
theorem oversize_compression_notice_witness :
    analyze_attachment bigEnv =
      (⟨200, [("note", "File was compressed due to size."),
              ("filename", "report.pdf" ++ ".zip")]⟩,
       ⟨true, true, false, none, none⟩) :=
  oversize_compression_notice bigEnv
    ⟨"report.pdf", "application/pdf", some "https://example.com/dl"⟩
    (List.replicate (75 * 1024 * 1024 + 1) 0)
    rfl (by decide) rfl (by rw [List.length_replicate]; omega)

/-- C6: when extraction parses successfully but yields empty text, the
attachment route responds 422 and no completion call is made. -/
theorem empty_extraction_422_no_model (env : Env) (att : Attachment) (bs : Bytes) (b : Branch)
    (hmeta : env.metadata = Except.ok att)
    (hurl : ¬ (att.url = none ∨ att.url = some ""))
    (hdl : env.download = Except.ok bs)
    (hsize : bs.length ≤ 75 * 1024 * 1024)
    (hex : extract env.parsers att.mime_type bs = ExtractOutcome.ok b []) :
    analyze_attachment env =
      (⟨422, [("error", "Failed to extract text.")]⟩,
       ⟨true, true, true, some b, none⟩) := by
  rw [analyze_attachment_reaches_extraction env att bs hmeta hurl hdl hsize]
  simp [extract_phase, hex]

/-- An environment whose text attachment decodes to the empty string. -/
def emptyTextEnv : Env :=
  ⟨⟨fun _ => Except.error "fitz", fun _ => Except.ok [],
    fun _ => Except.error "pandas", fun _ => Except.error "docx"⟩,
   Except.ok ⟨"empty.txt", "text/plain", some "https://example.com/dl"⟩,
   Except.ok [], fun _ bs => bs, fun _ => Except.error "no model"⟩

/-- Witness for C6 at a concrete empty decode. -/
theorem empty_extraction_422_no_model_witness :
    analyze_attachment emptyTextEnv =
      (⟨422, [("error", "Failed to extract text.")]⟩,
       ⟨true, true, true, some Branch.text, none⟩) :=
  empty_extraction_422_no_model emptyTextEnv
    ⟨"empty.txt", "text/plain", some "https://example.com/dl"⟩
    [] Branch.text rfl (by decide) rfl (by decide) rfl

/-- C7: a `text` MIME type (with no earlier `pdf` match) whose bytes fail
UTF-8 decoding yields a 422 parsing-failure response, not a silent
replacement, and no completion call is made. -/
theorem invalid_utf8_text_422 (env : Env) (att : Attachment) (bs : Bytes) (e : String)
    (hmeta : env.metadata = Except.ok att)
    (hurl : ¬ (att.url = none ∨ att.url = some ""))
    (hdl : env.download = Except.ok bs)
    (hsize : bs.length ≤ 75 * 1024 * 1024)
    (htext : containsSub "text" att.mime_type = true)
    (hpdf : containsSub "pdf" att.mime_type = false)
    (hdec : env.parsers.utf8Decode bs = Except.error e) :
    analyze_attachment env =
      (⟨422, [("error", "Document parsing failed: " ++ e)]⟩,
       ⟨true, true, true, some Branch.text, none⟩) := by
  rw [analyze_attachment_reaches_extraction env att bs hmeta hurl hdl hsize]
  simp [extract_phase, extract, dispatch, runBranch, htext, hpdf, hdec]

/-- An environment whose text attachment's bytes are not valid UTF-8. -/
def badUtf8Env : Env :=
  ⟨⟨fun _ => Except.error "fitz", fun _ => Except.error "invalid start byte",
    fun _ => Except.error "pandas", fun _ => Except.error "docx"⟩,
   Except.ok ⟨"notes.txt", "text/plain", some "https://example.com/dl"⟩,
   Except.ok [255], fun _ bs => bs, fun _ => Except.error "no model"⟩

/-- Witness for C7 at a concrete invalid byte. -/
theorem invalid_utf8_text_422_witness :
    analyze_attachment badUtf8Env =
      (⟨422, [("error", "Document parsing failed: " ++ "invalid start byte")]⟩,
       ⟨true, true, true, some Branch.text, none⟩) :=
  invalid_utf8_text_422 badUtf8Env
    ⟨"notes.txt", "text/plain", some "https://example.com/dl"⟩
    [255] "invalid start byte" rfl (by decide) rfl (by decide)
    (by decide) (by decide) rfl

/-- C3: the extractor dispatches on the first matching substring in source
order — `pdf`, then `text`, then `spreadsheet`/`excel`, then
`wordprocessingml`/`msword` — the selected arm's parser alone produces the
outcome, and a MIME string matching none of these yields a 415 response
echoing the MIME type. -/
theorem extractor_dispatch_order (p : Parsers)
    (mc : List Char → Except String ModelReply) (ct : String) (bs : Bytes) (b : Branch) :
    (containsSub "pdf" ct = true → dispatch ct = some Branch.pdf) ∧
    (containsSub "pdf" ct = false → containsSub "text" ct = true →
      dispatch ct = some Branch.text) ∧
    (containsSub "pdf" ct = false → containsSub "text" ct = false →
      (containsSub "spreadsheet" ct = true ∨ containsSub "excel" ct = true) →
      dispatch ct = some Branch.sheet) ∧
    (containsSub "pdf" ct = false → containsSub "text" ct = false →
      containsSub "spreadsheet" ct = false → containsSub "excel" ct = false →
      (containsSub "wordprocessingml" ct = true ∨ containsSub "msword" ct = true) →
      dispatch ct = some Branch.word) ∧
    (containsSub "pdf" ct = false → containsSub "text" ct = false →
      containsSub "spreadsheet" ct = false → containsSub "excel" ct = false →
      containsSub "wordprocessingml" ct = false → containsSub "msword" ct = false →
      dispatch ct = none) ∧
    (dispatch ct = some b →
      extract p ct bs =
        (match runBranch p b bs with
         | Except.ok t => ExtractOutcome.ok b t
         | Except.error e => ExtractOutcome.parseErr b e)) ∧
    (dispatch ct = none →
      extract_phase p mc ct bs =
        (⟨415, [("error", "Unsupported file type: " ++ ct)]⟩, none, none)) := by
  refine ⟨?_, ?_, ?_, ?_, ?_, ?_, ?_⟩
  · intro h1; simp [dispatch, h1]
  · intro h1 h2; simp [dispatch, h1, h2]
  · intro h1 h2 h3
    rcases h3 with h3 | h3 <;> simp [dispatch, h1, h2, h3]
  · intro h1 h2 h3 h4 h5
    rcases h5 with h5 | h5 <;> simp [dispatch, h1, h2, h3, h4, h5]
  · intro h1 h2 h3 h4 h5 h6; simp [dispatch, h1, h2, h3, h4, h5, h6]
  · intro h; simp [extract, h]
  · intro h; simp [extract_phase, extract, h]

/-- Witness for C3: a MIME type containing both `text` and `spreadsheet`
takes the text arm, and an unmatched MIME type yields the 415 echo. -/
theorem extractor_dispatch_order_witness :
    dispatch "text/spreadsheet" = some Branch.text ∧
    extract_phase demoParsers (fun _ => Except.error "m") "application/x-unknown" [] =
      (⟨415, [("error", "Unsupported file type: " ++ "application/x-unknown")]⟩,
       none, none) :=
  ⟨(extractor_dispatch_order demoParsers (fun _ => Except.error "m")
      "text/spreadsheet" [] Branch.text).2.1 (by decide) (by decide),
   (extractor_dispatch_order demoParsers (fun _ => Except.error "m")
      "application/x-unknown" [] Branch.text).2.2.2.2.2.2 (by decide)⟩

/-- C5: both completion calls embed exactly the first 8000 characters of the
text in the user message — the attachment route sends the fixed instruction
followed by `raw_text`'s 8000-character truncation, the `/analyze` route
sends the query, a blank line, and `content`'s truncation; text of length at
most 8000 is sent whole, and longer text contributes precisely its
8000-character prefix. -/
theorem prompt_truncation_8000 (env : Env) (att : Attachment) (bs : Bytes) (b : Branch)
    (text query content : List Char)
    (mc : List Char → Except String ModelReply)
    (hmeta : env.metadata = Except.ok att)
    (hurl : ¬ (att.url = none ∨ att.url = some ""))
    (hdl : env.download = Except.ok bs)
    (hsize : bs.length ≤ 75 * 1024 * 1024)
    (hex : extract env.parsers att.mime_type bs = ExtractOutcome.ok b text)
    (hne : text ≠ [])
    (hq : query ≠ []) (hc : content ≠ []) :
    (analyze_attachment env).2.sentMessage =
      some ("Analyze this document:\n\n".data ++ text.take 8000) ∧
    (analyze_content mc (some content) (some query)).2 =
      some (query ++ "\n\n".data ++ content.take 8000) ∧
    (text.length ≤ 8000 → text.take 8000 = text) ∧
    (8000 < text.length →
      (text.take 8000).length = 8000 ∧ text.take 8000 <+: text) ∧
    (content.length ≤ 8000 → content.take 8000 = content) ∧
    (8000 < content.length →
      (content.take 8000).length = 8000 ∧ content.take 8000 <+: content) := by
  refine ⟨?_, ?_, fun h => List.take_of_length_le h, fun h => ⟨?_, ?_⟩,
          fun h => List.take_of_length_le h, fun h => ⟨?_, ?_⟩⟩
  · rw [analyze_attachment_reaches_extraction env att bs hmeta hurl hdl hsize]
    simp only [extract_phase, hex, userMessage_attachment]
    rw [if_neg (by simpa using hne)]
    rcases hcall : env.modelCall ("Analyze this document:\n\n".data ++ text.take 8000) with r | r <;>
      simp [hcall]
  · simp only [analyze_content]
    rw [if_neg (by simp [hq, hc])]
    split <;> rfl
  · rw [List.length_take]; omega
  · exact ⟨text.drop 8000, List.take_append_drop 8000 text⟩
  · rw [List.length_take]; omega
  · exact ⟨content.drop 8000, List.take_append_drop 8000 content⟩

/-- Witness for C5 at a concrete successful text extraction and a concrete
`/analyze` body. -/
theorem prompt_truncation_8000_witness :
    (analyze_attachment textOkEnv).2.sentMessage =
      some ("Analyze this document:\n\n".data ++ "hello".data.take 8000) ∧
    (analyze_content (fun _ => Except.ok ⟨"Summary.".data, "usage"⟩)
        (some "Q3 revenue grew 10%.".data) (some "Summarize".data)).2 =
      some ("Summarize".data ++ "\n\n".data ++ "Q3 revenue grew 10%.".data.take 8000) ∧
    ("hello".data.length ≤ 8000 → "hello".data.take 8000 = "hello".data) ∧
    (8000 < "hello".data.length →
      ("hello".data.take 8000).length = 8000 ∧ "hello".data.take 8000 <+: "hello".data) ∧
    ("Q3 revenue grew 10%.".data.length ≤ 8000 →
      "Q3 revenue grew 10%.".data.take 8000 = "Q3 revenue grew 10%.".data) ∧
    (8000 < "Q3 revenue grew 10%.".data.length →
      ("Q3 revenue grew 10%.".data.take 8000).length = 8000 ∧
      "Q3 revenue grew 10%.".data.take 8000 <+: "Q3 revenue grew 10%.".data) :=
  prompt_truncation_8000 textOkEnv
    ⟨"notes.txt", "text/plain", some "https://example.com/dl"⟩
    [104, 101, 108, 108, 111] Branch.text
    "hello".data "Summarize".data "Q3 revenue grew 10%.".data
    (fun _ => Except.ok ⟨"Summary.".data, "usage"⟩)
    rfl (by decide) rfl (by decide) (by decide) (by decide) (by decide) (by decide)

end Godspeed
